import Mathlib

/-!
Shallow embedding of the doctor-appointment API (FastAPI/SQLAlchemy service).

Times (`datetime` columns) are modelled as integers; the database is a
`Store` record holding the three tables as lists (rows in insertion order,
as SQLite returns them without an ORDER BY).  Each repository and service
method of the source is translated to a Lean function over `Store`;
methods that may raise return `Except`.  `HTTPException`s raised by the
service layer are modelled as explicit error constructors carrying the
same case distinctions as the source's status codes and detail strings.
-/

namespace DoctorApi

/-- `app/models/appointment.py`: `AppointmentStatus(str, enum.Enum)` with
members CONFIRMED and CANCELLED. -/
inductive AppointmentStatus where
  | confirmed
  | cancelled
deriving DecidableEq, Repr

/-- `app/models/user.py`: `UserRole(str, enum.Enum)` with members DOCTOR
and PATIENT. -/
inductive UserRole where
  | doctor
  | patient
deriving DecidableEq, Repr

/-- `app/models/user.py`: the `users` table row.  Only the columns the
scheduling logic reads are kept (email/password_hash/name are never
consulted by booking, cancelling or availability registration). -/
structure User where
  id : Nat
  role : UserRole
deriving DecidableEq, Repr

/-- `app/models/availability.py`: the `availabilities` table row. -/
structure Availability where
  id : Nat
  doctor_id : Nat
  start_time : Int
  end_time : Int
deriving DecidableEq, Repr

/-- `app/models/appointment.py`: the `appointments` table row. -/
structure Appointment where
  id : Nat
  doctor_id : Nat
  patient_id : Nat
  start_time : Int
  end_time : Int
  status : AppointmentStatus
deriving DecidableEq, Repr

/-- The database state: the three tables plus the autoincrement counters
of the two tables the services insert into. -/
structure Store where
  users : List User
  availabilities : List Availability
  appointments : List Appointment
  nextApptId : Nat
  nextAvailId : Nat
deriving DecidableEq, Repr

/-- The empty database (fresh schema, autoincrement counters at 1). -/
def emptyStore : Store :=
  { users := [], availabilities := [], appointments := []
    nextApptId := 1, nextAvailId := 1 }

/-- SQLAlchemy error raised by `Result.scalar_one_or_none()` when the
result has more than one row. -/
inductive DBError where
  | multipleResultsFound
deriving DecidableEq, Repr

/-- SQLAlchemy `Result.scalar_one_or_none()`: `none` on an empty result,
the row on a singleton result, and raises `MultipleResultsFound` when two
or more rows are returned. -/
def scalar_one_or_none : List α → Except DBError (Option α)
  | [] => .ok none
  | [a] => .ok (some a)
  | _ :: _ :: _ => .error .multipleResultsFound

/-- Python truthiness of the `exclude_id: Optional[int]` parameter as
tested by `if exclude_id:` — both `None` and `0` are falsy. -/
def excludeTruthy : Option Nat → Bool
  | none => false
  | some i => i != 0

/-- `UserRepository.get_user_by_id`: select by primary key.  `id` is the
primary key, so at most one row matches and `scalar_one_or_none` is the
first matching row. -/
def get_user_by_id (s : Store) (user_id : Nat) : Option User :=
  s.users.find? (fun u => u.id == user_id)

/-- The rows matched by the WHERE clause of
`AppointmentRepository.check_booking_conflict`: same doctor, status
CONFIRMED, `start_time < end_time` and `end_time > start_time` of the
request (half-open overlap). -/
def conflictMatches (s : Store) (doctor_id : Nat) (st en : Int) : List Appointment :=
  s.appointments.filter (fun a =>
    a.doctor_id == doctor_id && a.status == AppointmentStatus.confirmed &&
      decide (a.start_time < en) && decide (a.end_time > st))

/-- `AppointmentRepository.check_booking_conflict`: runs the overlap
query and applies `scalar_one_or_none()` to it, so it returns a Boolean
only when at most one row matches and raises `MultipleResultsFound`
otherwise. -/
def check_booking_conflict (s : Store) (doctor_id : Nat) (st en : Int)
    (exclude_id : Option Nat) : Except DBError Bool :=
  let rows := conflictMatches s doctor_id st en
  let rows := if excludeTruthy exclude_id then
      rows.filter (fun a => a.id != exclude_id.getD 0)
    else rows
  match scalar_one_or_none rows with
  | .error e => .error e
  | .ok r => .ok r.isSome

/-- The rows matched by the WHERE clause of
`AvailabilityRepository.check_availability_overlap`: same doctor and the
half-open overlap test (no status column on availabilities). -/
def overlapMatches (s : Store) (doctor_id : Nat) (st en : Int) : List Availability :=
  s.availabilities.filter (fun w =>
    w.doctor_id == doctor_id && decide (w.start_time < en) && decide (w.end_time > st))

/-- `AvailabilityRepository.check_availability_overlap`: overlap query
followed by `scalar_one_or_none()`, exactly as the booking conflict
check. -/
def check_availability_overlap (s : Store) (doctor_id : Nat) (st en : Int)
    (exclude_id : Option Nat) : Except DBError Bool :=
  let rows := overlapMatches s doctor_id st en
  let rows := if excludeTruthy exclude_id then
      rows.filter (fun w => w.id != exclude_id.getD 0)
    else rows
  match scalar_one_or_none rows with
  | .error e => .error e
  | .ok r => .ok r.isSome

/-- The ORDER BY `start_time` ordering on appointment rows. -/
def apptByStart (a b : Appointment) : Prop := a.start_time ≤ b.start_time

/-- The ORDER BY `start_time` ordering on availability rows. -/
def availByStart (a b : Availability) : Prop := a.start_time ≤ b.start_time

instance : DecidableRel apptByStart := fun _ _ => Int.decLe _ _

instance : DecidableRel availByStart := fun _ _ => Int.decLe _ _

instance : IsTotal Appointment apptByStart :=
  ⟨fun a b => Int.le_total a.start_time b.start_time⟩

instance : IsTrans Appointment apptByStart :=
  ⟨fun _ _ _ h h' => le_trans h h'⟩

instance : IsTotal Availability availByStart :=
  ⟨fun a b => Int.le_total a.start_time b.start_time⟩

instance : IsTrans Availability availByStart :=
  ⟨fun _ _ _ h h' => le_trans h h'⟩

/-- `AvailabilityRepository.get_doctor_availabilities`: all windows of the
doctor, optionally filtered to `start_time >= start_date` (a `datetime`
is always truthy, so `if start_date:` is a None test), ordered by
`start_time`. -/
def get_doctor_availabilities (s : Store) (doctor_id : Nat)
    (start_date : Option Int) : List Availability :=
  let rows := s.availabilities.filter (fun w => w.doctor_id == doctor_id)
  let rows := match start_date with
    | some d => rows.filter (fun w => decide (d ≤ w.start_time))
    | none => rows
  List.insertionSort availByStart rows

/-- `AppointmentRepository.get_doctor_appointments`: CONFIRMED
appointments of the doctor, optional `start_time >= start_date` filter,
ordered by `start_time`. -/
def get_doctor_appointments (s : Store) (doctor_id : Nat)
    (start_date : Option Int) : List Appointment :=
  let rows := s.appointments.filter (fun a =>
    a.doctor_id == doctor_id && a.status == AppointmentStatus.confirmed)
  let rows := match start_date with
    | some d => rows.filter (fun a => decide (d ≤ a.start_time))
    | none => rows
  List.insertionSort apptByStart rows

/-- `AppointmentRepository.get_patient_appointments`: CONFIRMED
appointments of the patient, optional `start_time >= start_date` filter,
ordered by `start_time`. -/
def get_patient_appointments (s : Store) (patient_id : Nat)
    (start_date : Option Int) : List Appointment :=
  let rows := s.appointments.filter (fun a =>
    a.patient_id == patient_id && a.status == AppointmentStatus.confirmed)
  let rows := match start_date with
    | some d => rows.filter (fun a => decide (d ≤ a.start_time))
    | none => rows
  List.insertionSort apptByStart rows

/-- `AppointmentRepository.get_appointment_by_id`: select by primary key
(`id` is the primary key, so at most one row matches). -/
def get_appointment_by_id (s : Store) (appointment_id : Nat) : Option Appointment :=
  s.appointments.find? (fun a => a.id == appointment_id)

/-- `AppointmentRepository.create_appointment`: INSERT a new row with
status CONFIRMED; the autoincrement primary key is assigned by the
database. -/
def create_appointment (s : Store) (doctor_id patient_id : Nat) (st en : Int) :
    Appointment × Store :=
  let appt : Appointment :=
    { id := s.nextApptId, doctor_id := doctor_id, patient_id := patient_id
      start_time := st, end_time := en, status := AppointmentStatus.confirmed }
  (appt, { s with appointments := s.appointments ++ [appt], nextApptId := s.nextApptId + 1 })

/-- `AvailabilityRepository.create_availability`: INSERT a new window. -/
def create_availability (s : Store) (doctor_id : Nat) (st en : Int) :
    Availability × Store :=
  let w : Availability :=
    { id := s.nextAvailId, doctor_id := doctor_id, start_time := st, end_time := en }
  (w, { s with availabilities := s.availabilities ++ [w], nextAvailId := s.nextAvailId + 1 })

/-- The row update performed by `AppointmentRepository.cancel_appointment`
on the fetched ORM object: set `status = CANCELLED` on the row whose
primary key is `appointment_id`, leave every other row unchanged. -/
def cancelRow (appointment_id : Nat) (a : Appointment) : Appointment :=
  if a.id == appointment_id then { a with status := AppointmentStatus.cancelled } else a

/-- `AppointmentRepository.cancel_appointment`: fetch by id; if found,
set the status to CANCELLED, commit, and return the updated row;
otherwise return None without touching the store. -/
def repo_cancel_appointment (s : Store) (appointment_id : Nat) :
    Option Appointment × Store :=
  match get_appointment_by_id s appointment_id with
  | none => (none, s)
  | some a =>
    (some { a with status := AppointmentStatus.cancelled },
     { s with appointments := s.appointments.map (cancelRow appointment_id) })

/-- Request body of a booking (`AppointmentCreate`): target doctor plus
the requested half-open interval. -/
structure AppointmentCreate where
  doctor_id : Nat
  start_time : Int
  end_time : Int
deriving DecidableEq, Repr

/-- Request body of an availability registration (`AvailabilityCreate`). -/
structure AvailabilityCreate where
  start_time : Int
  end_time : Int
deriving DecidableEq, Repr

/-- The two interval errors the Pydantic schemas can report. -/
inductive SchemaError where
  | pastInterval
  | invalidInterval
deriving DecidableEq, Repr

/-- `AppointmentBase` field validation (`app/schemas/appointment.py`).
Fields are validated in declaration order: `validate_start_time_future`
rejects `start_time < datetime.now()`; `validate_end_after_start` runs
only when `start_time` validated successfully (otherwise it is absent
from `info.data`) and rejects `end_time <= start_time`.  `now` is the
clock value at validation time.  Pydantic v2 runs these inherited
validators both on request bodies and on `model_validate` of a response
model extending `AppointmentBase`. -/
def validateAppointmentInterval (now st en : Int) : Option SchemaError :=
  if st < now then some .pastInterval
  else if en ≤ st then some .invalidInterval
  else none

/-- `AvailabilityBase` field validation (`app/schemas/availability.py`),
textually identical to the appointment schema's validators. -/
def validateAvailabilityInterval (now st en : Int) : Option SchemaError :=
  if st < now then some .pastInterval
  else if en ≤ st then some .invalidInterval
  else none

/-- The `HTTPException`s `PatientService.book_appointment` can raise,
plus the propagation of an unhandled database error from the conflict
query (which surfaces as an internal server error, not as a business
rejection). -/
inductive BookError where
  | doctorNotFound
  | outsideAvailability
  | doubleBooked
  | internal (e : DBError)
deriving DecidableEq, Repr

/-- The `HTTPException`s `PatientService.cancel_appointment` can raise,
plus the `ValidationError` that `AppointmentResponse.model_validate`
raises on the returned row (Pydantic v2 re-runs the validators inherited
from `AppointmentBase`), surfacing as an internal server error.  That
raise happens after the repository already committed the status update,
so the constructor carries the committed store.  `internal` models the
(unreachable) `model_validate(None)` path when the repository returns
None after the service already found the row. -/
inductive CancelError where
  | notFound
  | forbidden
  | validationError (e : SchemaError) (committed : Store)
  | internal
deriving DecidableEq, Repr

/-- The `HTTPException` `DoctorService.set_availability` can raise, plus
propagation of an unhandled database error from the overlap query. -/
inductive AvailError where
  | overlapConflict
  | internal (e : DBError)
deriving DecidableEq, Repr

/-- `PatientService._check_time_within_availability`: loads ALL windows
of the doctor (no start_date filter) and returns whether some single
window satisfies `start_time <= start and end_time >= end`. -/
def check_time_within_availability (s : Store) (doctor_id : Nat) (st en : Int) : Bool :=
  (get_doctor_availabilities s doctor_id none).any (fun w =>
    decide (w.start_time ≤ st) && decide (w.end_time ≥ en))

/-- `PatientService.book_appointment`: resolve the doctor (404 if absent
or not role DOCTOR), check coverage (400 "not within doctor's
availability"), run the conflict query (400 "already booked" on a
conflict, database error propagated), then INSERT the CONFIRMED
appointment. -/
def book_appointment (s : Store) (patient_id : Nat) (d : AppointmentCreate) :
    Except BookError (Appointment × Store) :=
  match get_user_by_id s d.doctor_id with
  | none => .error .doctorNotFound
  | some doctor =>
    if doctor.role != UserRole.doctor then .error .doctorNotFound
    else if !check_time_within_availability s d.doctor_id d.start_time d.end_time then
      .error .outsideAvailability
    else
      match check_booking_conflict s d.doctor_id d.start_time d.end_time none with
      | .error e => .error (.internal e)
      | .ok true => .error .doubleBooked
      | .ok false => .ok (create_appointment s d.doctor_id patient_id d.start_time d.end_time)

/-- `PatientService.cancel_appointment`: 404 if the appointment does not
exist, 403 if the caller is not its patient, otherwise delegate to the
repository (which re-fetches the row, sets CANCELLED and commits) and
return `AppointmentResponse.model_validate(cancelled)`
(`services/patient.py:200`).  That `model_validate` re-runs the field
validators inherited from `AppointmentBase`, so for a row whose
`start_time` is already past it raises a `ValidationError` (HTTP 500) —
after the commit; the error carries the committed store.  `now` is the
clock value at response validation time. -/
def cancel_appointment (s : Store) (now : Int) (appointment_id patient_id : Nat) :
    Except CancelError (Appointment × Store) :=
  match get_appointment_by_id s appointment_id with
  | none => .error .notFound
  | some appt =>
    if appt.patient_id != patient_id then .error .forbidden
    else
      match repo_cancel_appointment s appointment_id with
      | (some a, s') =>
        match validateAppointmentInterval now a.start_time a.end_time with
        | some e => .error (.validationError e s')
        | none => .ok (a, s')
      | (none, _) => .error .internal

/-- `DoctorService.set_availability`: run the overlap query (400
"overlaps with existing availability" on an overlap, database error
propagated), then INSERT the window and return it. -/
def set_availability (s : Store) (doctor_id : Nat) (d : AvailabilityCreate) :
    Except AvailError (Availability × Store) :=
  match check_availability_overlap s doctor_id d.start_time d.end_time none with
  | .error e => .error (.internal e)
  | .ok true => .error .overlapConflict
  | .ok false => .ok (create_availability s doctor_id d.start_time d.end_time)

/-- Model of a bcrypt digest: cost, salt, and the key material the
algorithm absorbed.  The pyca/bcrypt library documents that the
algorithm only reads the first 72 bytes of the password; `hashpw` (and
hence `checkpw`, which re-hashes with the stored salt and compares)
applies this 72-byte cut internally. -/
structure BcryptHash where
  cost : Nat
  salt : Nat
  key : List UInt8
deriving DecidableEq, Repr

/-- The bcrypt library's `hashpw(password, salt)`: absorbs at most the
first 72 bytes of the password. -/
def bcrypt_hashpw (password : List UInt8) (cost salt : Nat) : BcryptHash :=
  { cost := cost, salt := salt, key := password.take 72 }

/-- The bcrypt library's `checkpw(password, hashed)`: re-hash the
candidate with the parameters stored in the digest and compare. -/
def bcrypt_checkpw (password : List UInt8) (h : BcryptHash) : Bool :=
  decide (bcrypt_hashpw password h.cost h.salt = h)

/-- The UTF-8 encoding `str.encode('utf-8')`. -/
def utf8Bytes (s : String) : List UInt8 := s.toUTF8.toList

/-- `AuthService.get_password_hash`: explicitly truncates the encoded
password to 72 bytes, then hashes with a fresh salt at cost 12 (the salt
is random; it is a parameter here). -/
def get_password_hash (salt : Nat) (password : String) : BcryptHash :=
  bcrypt_hashpw ((utf8Bytes password).take 72) 12 salt

/-- `AuthService.verify_password`: passes the full encoded password to
`bcrypt.checkpw`. -/
def verify_password (password : String) (h : BcryptHash) : Bool :=
  bcrypt_checkpw (utf8Bytes password) h

/-- Decidable equality of `Except` results, so that concrete runs of the
service functions can be checked by `decide`. -/
instance [DecidableEq e] [DecidableEq a] : DecidableEq (Except e a)
  | .error x, .error y =>
    if h : x = y then .isTrue (by rw [h]) else .isFalse (fun hh => h (Except.error.inj hh))
  | .error _, .ok _ => .isFalse (fun hh => Except.noConfusion hh)
  | .ok _, .error _ => .isFalse (fun hh => Except.noConfusion hh)
  | .ok x, .ok y =>
    if h : x = y then .isTrue (by rw [h]) else .isFalse (fun hh => h (Except.ok.inj hh))

/-- Half-open overlap of two appointment rows, the test used by the WHERE
clause of the conflict query. -/
def apptOverlap (a b : Appointment) : Prop :=
  a.start_time < b.end_time ∧ b.start_time < a.end_time

/-- Two stored appointment rows never form a pair of overlapping CONFIRMED
appointments of one doctor. -/
def noConfirmedOverlap (a b : Appointment) : Prop :=
  a.doctor_id = b.doctor_id → a.status = AppointmentStatus.confirmed →
    b.status = AppointmentStatus.confirmed → ¬ apptOverlap a b

/-- The core invariant: for each doctor, the CONFIRMED appointments in the
store are pairwise non-overlapping. -/
def ConfirmedDisjoint (s : Store) : Prop :=
  s.appointments.Pairwise noConfirmedOverlap

/-- One API request against the store: a patient booking, a patient
cancellation (with the clock value at its response validation), or a
doctor availability registration. -/
inductive Op where
  | book (patient_id : Nat) (d : AppointmentCreate)
  | cancel (now : Int) (appointment_id patient_id : Nat)
  | setAvail (doctor_id : Nat) (d : AvailabilityCreate)

/-- Run one API operation.  A rejected or failed request leaves the store
unchanged, with one exception mirroring the program: the cancellation's
response-validation raise happens after the repository commit, so on that
path the committed store (carried by the error) is kept. -/
def applyOp (s : Store) (op : Op) : Store :=
  match op with
  | .book pid d =>
    match book_appointment s pid d with
    | .ok (_, s') => s'
    | .error _ => s
  | .cancel now aid pid =>
    match cancel_appointment s now aid pid with
    | .ok (_, s') => s'
    | .error (.validationError _ s') => s'
    | .error _ => s
  | .setAvail did d =>
    match set_availability s did d with
    | .ok (_, s') => s'
    | .error _ => s

/-- A store with one doctor, one patient and one wide availability window. -/
def demoStore : Store :=
  { users := [{ id := 1, role := UserRole.doctor }, { id := 2, role := UserRole.patient }]
    availabilities := [{ id := 1, doctor_id := 1, start_time := 0, end_time := 100 }]
    appointments := []
    nextApptId := 1, nextAvailId := 2 }

/-- A store in which the interval [5,15) overlaps two availability windows
and two confirmed appointments of doctor 1 at once. -/
def raceStore : Store :=
  { users := [{ id := 1, role := UserRole.doctor }]
    availabilities := [{ id := 1, doctor_id := 1, start_time := 0, end_time := 100 },
                       { id := 2, doctor_id := 1, start_time := 5, end_time := 10 }]
    appointments := [{ id := 1, doctor_id := 1, patient_id := 2, start_time := 4, end_time := 6,
                       status := AppointmentStatus.confirmed },
                     { id := 2, doctor_id := 1, patient_id := 3, start_time := 6, end_time := 8,
                       status := AppointmentStatus.confirmed }]
    nextApptId := 3, nextAvailId := 3 }

/-- A store holding one already-cancelled appointment of patient 2. -/
def cancelStore : Store :=
  { users := [{ id := 1, role := UserRole.doctor }, { id := 2, role := UserRole.patient }]
    availabilities := [{ id := 1, doctor_id := 1, start_time := 0, end_time := 100 }]
    appointments := [{ id := 1, doctor_id := 1, patient_id := 2, start_time := 10, end_time := 20,
                       status := AppointmentStatus.cancelled }]
    nextApptId := 2, nextAvailId := 2 }

/-- A store holding one confirmed appointment of patient 2 on [10,20). -/
def rebookStore : Store :=
  { users := [{ id := 1, role := UserRole.doctor }, { id := 2, role := UserRole.patient }]
    availabilities := [{ id := 1, doctor_id := 1, start_time := 0, end_time := 100 }]
    appointments := [{ id := 1, doctor_id := 1, patient_id := 2, start_time := 10, end_time := 20,
                       status := AppointmentStatus.confirmed }]
    nextApptId := 2, nextAvailId := 2 }

/-- A store with two touching confirmed appointments [10,20) and [20,30) of
doctor 1, both overlapping the request [15,25). -/
def bugStoreBooking : Store :=
  { users := [{ id := 1, role := UserRole.doctor }]
    availabilities := [{ id := 1, doctor_id := 1, start_time := 0, end_time := 100 }]
    appointments := [{ id := 1, doctor_id := 1, patient_id := 2, start_time := 10, end_time := 20,
                       status := AppointmentStatus.confirmed },
                     { id := 2, doctor_id := 1, patient_id := 2, start_time := 20, end_time := 30,
                       status := AppointmentStatus.confirmed }]
    nextApptId := 3, nextAvailId := 2 }

/-- A store with two touching availability windows [0,10) and [10,20) of
doctor 1, both overlapping the new window [5,15). -/
def bugStoreAvailability : Store :=
  { users := [{ id := 1, role := UserRole.doctor }]
    availabilities := [{ id := 1, doctor_id := 1, start_time := 0, end_time := 10 },
                       { id := 2, doctor_id := 1, start_time := 10, end_time := 20 }]
    appointments := []
    nextApptId := 1, nextAvailId := 3 }

/-- Normal form of the booking conflict check: a Boolean answer when at
most one row matches, `MultipleResultsFound` when two or more do. -/
theorem check_booking_conflict_eq (s : Store) (did : Nat) (st en : Int) :
    check_booking_conflict s did st en none =
      if 2 ≤ (conflictMatches s did st en).length then .error DBError.multipleResultsFound
      else .ok ((conflictMatches s did st en).length == 1) := by
  have h0 : check_booking_conflict s did st en none =
      (match scalar_one_or_none (conflictMatches s did st en) with
       | .error e => .error e
       | .ok r => .ok r.isSome) := rfl
  rw [h0]
  rcases conflictMatches s did st en with _ | ⟨a, _ | ⟨b, l⟩⟩
  · rfl
  · rfl
  · have h2 : 2 ≤ (a :: b :: l).length := by simp
    simp [scalar_one_or_none, h2]

/-- Normal form of the availability overlap check. -/
theorem check_availability_overlap_eq (s : Store) (did : Nat) (st en : Int) :
    check_availability_overlap s did st en none =
      if 2 ≤ (overlapMatches s did st en).length then .error DBError.multipleResultsFound
      else .ok ((overlapMatches s did st en).length == 1) := by
  have h0 : check_availability_overlap s did st en none =
      (match scalar_one_or_none (overlapMatches s did st en) with
       | .error e => .error e
       | .ok r => .ok r.isSome) := rfl
  rw [h0]
  rcases overlapMatches s did st en with _ | ⟨a, _ | ⟨b, l⟩⟩
  · rfl
  · rfl
  · have h2 : 2 ≤ (a :: b :: l).length := by simp
    simp [scalar_one_or_none, h2]

/-- The coverage loop succeeds exactly when a single stored window of the
doctor contains the requested interval. -/
theorem coverage_iff (s : Store) (did : Nat) (st en : Int) :
    check_time_within_availability s did st en = true ↔
      ∃ w ∈ s.availabilities, w.doctor_id = did ∧ w.start_time ≤ st ∧ en ≤ w.end_time := by
  unfold check_time_within_availability get_doctor_availabilities
  simp [List.any_eq_true, List.mem_insertionSort, List.mem_filter, and_assoc, ge_iff_le]

/-- The conflict query returns no rows exactly when no confirmed
appointment of the doctor overlaps the requested interval. -/
theorem conflictMatches_nil_iff (s : Store) (did : Nat) (st en : Int) :
    conflictMatches s did st en = [] ↔
      ¬ ∃ a ∈ s.appointments, a.doctor_id = did ∧ a.status = AppointmentStatus.confirmed ∧
          a.start_time < en ∧ st < a.end_time := by
  rw [conflictMatches, List.filter_eq_nil_iff]
  constructor
  · rintro h ⟨a, ha, h1, h2, h3, h4⟩
    exact h a ha (by simp [h1, h2, h3, h4])
  · intro h a ha hp
    simp only [Bool.and_eq_true, beq_iff_eq, decide_eq_true_eq, gt_iff_lt] at hp
    exact h ⟨a, ha, hp.1.1.1, hp.1.1.2, hp.1.2, hp.2⟩

/-- Booking succeeds exactly when the coverage check passes and the
conflict query is empty (given a resolvable doctor). -/
theorem book_ok_iff (s : Store) (pid : Nat) (d : AppointmentCreate) (u : User)
    (hu : get_user_by_id s d.doctor_id = some u) (hrole : u.role = UserRole.doctor) :
    (∃ r, book_appointment s pid d = .ok r) ↔
      (check_time_within_availability s d.doctor_id d.start_time d.end_time = true ∧
       conflictMatches s d.doctor_id d.start_time d.end_time = []) := by
  unfold book_appointment
  rw [hu]
  by_cases hc : check_time_within_availability s d.doctor_id d.start_time d.end_time = true
  · rw [check_booking_conflict_eq]
    rcases conflictMatches s d.doctor_id d.start_time d.end_time with _ | ⟨a, _ | ⟨b, l⟩⟩
    · simp [hrole, hc]
    · simp [hrole, hc]
    · simp [hrole, hc]
  · simp [hrole, hc]

/-- A successful booking appended exactly one new CONFIRMED row, and the
conflict query was empty. -/
theorem book_ok_destruct (s : Store) (pid : Nat) (d : AppointmentCreate)
    (a : Appointment) (s' : Store) (h : book_appointment s pid d = .ok (a, s')) :
    conflictMatches s d.doctor_id d.start_time d.end_time = [] ∧
    a = { id := s.nextApptId, doctor_id := d.doctor_id, patient_id := pid,
          start_time := d.start_time, end_time := d.end_time,
          status := AppointmentStatus.confirmed } ∧
    s' = { s with appointments := s.appointments ++ [a], nextApptId := s.nextApptId + 1 } := by
  unfold book_appointment at h
  split at h
  · exact absurd h (by simp)
  · split at h
    · exact absurd h (by simp)
    · split at h
      · exact absurd h (by simp)
      · rw [check_booking_conflict_eq] at h
        rcases hcm : conflictMatches s d.doctor_id d.start_time d.end_time with _ | ⟨x, _ | ⟨y, l⟩⟩ <;>
          rw [hcm] at h <;> simp [create_appointment] at h
        obtain ⟨ha, hs⟩ := h
        exact ⟨rfl, ha.symm, by rw [← hs, ← ha]⟩

/-- Cancelling an owned, existing appointment whose interval still passes
the response re-validation returns the row with status CANCELLED and
updates exactly that row in the store. -/
theorem cancel_ok_eq (s : Store) (now : Int) (aid pid : Nat) (a : Appointment)
    (hget : get_appointment_by_id s aid = some a) (hpid : a.patient_id = pid)
    (hval : validateAppointmentInterval now a.start_time a.end_time = none) :
    cancel_appointment s now aid pid =
      .ok ({ a with status := AppointmentStatus.cancelled },
           { s with appointments := s.appointments.map (cancelRow aid) }) := by
  unfold cancel_appointment repo_cancel_appointment
  rw [hget]
  simp [hpid, hval]

/-- Cancelling an owned, existing appointment whose interval fails the
response re-validation commits the status update and then raises,
carrying the committed store. -/
theorem cancel_validation_raise_eq (s : Store) (now : Int) (aid pid : Nat)
    (a : Appointment) (e : SchemaError)
    (hget : get_appointment_by_id s aid = some a) (hpid : a.patient_id = pid)
    (hval : validateAppointmentInterval now a.start_time a.end_time = some e) :
    cancel_appointment s now aid pid =
      .error (.validationError e
        { s with appointments := s.appointments.map (cancelRow aid) }) := by
  unfold cancel_appointment repo_cancel_appointment
  rw [hget]
  simp [hpid, hval]

/-- Any successful cancellation only rewrites the targeted row's status. -/
theorem cancel_ok_destruct (s : Store) (now : Int) (aid pid : Nat) (a : Appointment)
    (s' : Store) (h : cancel_appointment s now aid pid = .ok (a, s')) :
    s' = { s with appointments := s.appointments.map (cancelRow aid) } := by
  rcases hget : get_appointment_by_id s aid with _ | b
  · unfold cancel_appointment at h
    rw [hget] at h
    exact absurd h (by simp)
  · by_cases hpid : b.patient_id = pid
    · rcases hv : validateAppointmentInterval now b.start_time b.end_time with _ | e
      · rw [cancel_ok_eq s now aid pid b hget hpid hv] at h
        simp at h
        exact h.2.symm
      · rw [cancel_validation_raise_eq s now aid pid b e hget hpid hv] at h
        exact absurd h (by simp)
    · unfold cancel_appointment at h
      rw [hget] at h
      simp [hpid] at h

/-- The store carried by a cancellation's response-validation raise is the
committed single-row status update. -/
theorem cancel_raise_destruct (s : Store) (now : Int) (aid pid : Nat) (e : SchemaError)
    (s' : Store) (h : cancel_appointment s now aid pid = .error (.validationError e s')) :
    s' = { s with appointments := s.appointments.map (cancelRow aid) } := by
  rcases hget : get_appointment_by_id s aid with _ | b
  · unfold cancel_appointment at h
    rw [hget] at h
    exact absurd h (by simp)
  · by_cases hpid : b.patient_id = pid
    · rcases hv : validateAppointmentInterval now b.start_time b.end_time with _ | ev
      · rw [cancel_ok_eq s now aid pid b hget hpid hv] at h
        exact absurd h (by simp)
      · rw [cancel_validation_raise_eq s now aid pid b ev hget hpid hv] at h
        simp at h
        exact h.2.symm
    · unfold cancel_appointment at h
      rw [hget] at h
      simp [hpid] at h

/-- Registering availability never touches the appointments table. -/
theorem set_availability_ok_destruct (s : Store) (did : Nat) (d : AvailabilityCreate)
    (w : Availability) (s' : Store) (h : set_availability s did d = .ok (w, s')) :
    s'.appointments = s.appointments := by
  unfold set_availability at h
  split at h
  · exact absurd h (by simp)
  · exact absurd h (by simp)
  · simp [create_availability] at h
    rw [← h.2]

/-- A successful booking preserves the non-overlap invariant: the new row
was admitted only against an empty conflict query. -/
theorem book_preserves (s : Store) (pid : Nat) (d : AppointmentCreate)
    (hinv : ConfirmedDisjoint s) (a : Appointment) (s' : Store)
    (h : book_appointment s pid d = .ok (a, s')) : ConfirmedDisjoint s' := by
  obtain ⟨hnil, ha, hs⟩ := book_ok_destruct s pid d a s' h
  subst hs
  unfold ConfirmedDisjoint at *
  rw [List.pairwise_append]
  refine ⟨hinv, by simp, ?_⟩
  intro x hx b hb
  simp only [List.mem_singleton] at hb
  subst hb
  intro hdoc hcx hca hov
  have hxm : x ∈ conflictMatches s d.doctor_id d.start_time d.end_time := by
    rw [conflictMatches]
    refine List.mem_filter.mpr ⟨hx, ?_⟩
    subst ha
    obtain ⟨ho1, ho2⟩ := hov
    simp only at hdoc ho1 ho2
    simp [hdoc, hcx, ho1, ho2]
  rw [hnil] at hxm
  exact absurd hxm (List.not_mem_nil x)

/-- The row update of a cancellation preserves the pairwise non-overlap
relation (it can only retire a CONFIRMED status). -/
theorem cancelRow_rel (aid : Nat) (a b : Appointment) (h : noConfirmedOverlap a b) :
    noConfirmedOverlap (cancelRow aid a) (cancelRow aid b) := by
  intro hdoc hca hcb
  unfold cancelRow at hdoc hca hcb ⊢
  by_cases ha : (a.id == aid) = true
  · rw [if_pos ha] at hca
    exact absurd hca (by simp)
  · by_cases hb : (b.id == aid) = true
    · rw [if_pos hb] at hcb
      exact absurd hcb (by simp)
    · rw [if_neg ha] at hdoc hca ⊢
      rw [if_neg hb] at hdoc hcb ⊢
      exact h hdoc hca hcb

/-- The committed single-row status update of a cancellation preserves
the non-overlap invariant. -/
theorem cancel_map_preserves (s : Store) (aid : Nat) (hinv : ConfirmedDisjoint s) :
    ConfirmedDisjoint { s with appointments := s.appointments.map (cancelRow aid) } :=
  List.Pairwise.map _ (fun x y hxy => cancelRow_rel aid x y hxy) hinv

/-- A successful cancellation preserves the non-overlap invariant. -/
theorem cancel_preserves (s : Store) (now : Int) (aid pid : Nat) (hinv : ConfirmedDisjoint s)
    (a : Appointment) (s' : Store) (h : cancel_appointment s now aid pid = .ok (a, s')) :
    ConfirmedDisjoint s' := by
  rw [cancel_ok_destruct s now aid pid a s' h]
  exact cancel_map_preserves s aid hinv

/-- A successful availability registration preserves the invariant. -/
theorem setAvail_preserves (s : Store) (did : Nat) (d : AvailabilityCreate)
    (hinv : ConfirmedDisjoint s) (w : Availability) (s' : Store)
    (h : set_availability s did d = .ok (w, s')) : ConfirmedDisjoint s' := by
  unfold ConfirmedDisjoint at *
  rw [set_availability_ok_destruct s did d w s' h]
  exact hinv

/-- Every API operation preserves the non-overlap invariant. -/
theorem applyOp_preserves (s : Store) (op : Op) (hinv : ConfirmedDisjoint s) :
    ConfirmedDisjoint (applyOp s op) := by
  cases op with
  | book pid d =>
    show ConfirmedDisjoint (match book_appointment s pid d with
      | .ok (_, s') => s' | .error _ => s)
    rcases hb : book_appointment s pid d with e | ⟨a, s'⟩
    · exact hinv
    · exact book_preserves s pid d hinv a s' hb
  | cancel now aid pid =>
    show ConfirmedDisjoint (match cancel_appointment s now aid pid with
      | .ok (_, s') => s'
      | .error (.validationError _ s') => s'
      | .error _ => s)
    rcases hb : cancel_appointment s now aid pid with e | ⟨a, s'⟩
    · rcases e with _ | _ | ⟨ev, s'⟩ | _
      · exact hinv
      · exact hinv
      · rw [cancel_raise_destruct s now aid pid ev s' hb]
        exact cancel_map_preserves s aid hinv
      · exact hinv
    · exact cancel_preserves s now aid pid hinv a s' hb
  | setAvail did d =>
    show ConfirmedDisjoint (match set_availability s did d with
      | .ok (_, s') => s' | .error _ => s)
    rcases hb : set_availability s did d with e | ⟨w, s'⟩
    · exact hinv
    · exact setAvail_preserves s did d hinv w s' hb

/-- The cancellation row update never changes a primary key. -/
theorem cancelRow_id (aid : Nat) (x : Appointment) : (cancelRow aid x).id = x.id := by
  unfold cancelRow
  split <;> rfl

/-- Fetching by id after the cancellation update returns the same row with
status CANCELLED. -/
theorem find_cancelRow (l : List Appointment) (aid : Nat) (a : Appointment)
    (h : l.find? (fun x => x.id == aid) = some a) :
    (l.map (cancelRow aid)).find? (fun x => x.id == aid) =
      some { a with status := AppointmentStatus.cancelled } := by
  induction l with
  | nil => simp at h
  | cons x l ih =>
    rw [List.map_cons]
    by_cases hx : (x.id == aid) = true
    · have hpc : ((cancelRow aid x).id == aid) = true := by
        rw [cancelRow_id]
        exact hx
      simp only [List.find?_cons, hx, Option.some.injEq] at h
      subst h
      simp only [List.find?_cons, hpc]
      unfold cancelRow
      rw [if_pos hx]
    · have hxf : (x.id == aid) = false := by
        simp only [Bool.not_eq_true] at hx
        exact hx
      have hpc : ((cancelRow aid x).id == aid) = false := by
        rw [cancelRow_id]
        exact hxf
      simp only [List.find?_cons, hxf] at h
      simp only [List.find?_cons, hpc]
      exact ih h

/-- With coverage passing and exactly one matching conflict row, booking
is rejected as already booked. -/
theorem book_doubleBooked (s : Store) (pid : Nat) (d : AppointmentCreate) (u : User)
    (x : Appointment)
    (hu : get_user_by_id s d.doctor_id = some u) (hrole : u.role = UserRole.doctor)
    (hcov : check_time_within_availability s d.doctor_id d.start_time d.end_time = true)
    (hconf : conflictMatches s d.doctor_id d.start_time d.end_time = [x]) :
    book_appointment s pid d = .error .doubleBooked := by
  unfold book_appointment
  rw [hu, check_booking_conflict_eq, hconf]
  simp [hrole, hcov]

/-- With coverage passing and an empty conflict query, booking inserts the
new CONFIRMED appointment. -/
theorem book_ok_of (s : Store) (pid : Nat) (d : AppointmentCreate) (u : User)
    (hu : get_user_by_id s d.doctor_id = some u) (hrole : u.role = UserRole.doctor)
    (hcov : check_time_within_availability s d.doctor_id d.start_time d.end_time = true)
    (hnil : conflictMatches s d.doctor_id d.start_time d.end_time = []) :
    book_appointment s pid d =
      .ok (create_appointment s d.doctor_id pid d.start_time d.end_time) := by
  unfold book_appointment
  rw [hu, check_booking_conflict_eq, hnil]
  simp [hrole, hcov]

/-- After cancelling the only matching conflict row, the conflict query for
the same interval becomes empty. -/
theorem conflictMatches_cancel (s : Store) (aid : Nat) (did : Nat) (st en : Int)
    (x : Appointment)
    (hconf : conflictMatches s did st en = [x]) (hx : x.id = aid) :
    conflictMatches { s with appointments := s.appointments.map (cancelRow aid) }
      did st en = [] := by
  rw [conflictMatches] at hconf ⊢
  rw [show ({ s with appointments := s.appointments.map (cancelRow aid) } : Store).appointments
      = s.appointments.map (cancelRow aid) from rfl]
  rw [List.filter_map, List.map_eq_nil_iff, List.filter_eq_nil_iff]
  intro y hy
  simp only [Function.comp]
  by_cases hyid : (y.id == aid) = true
  · unfold cancelRow
    rw [if_pos hyid]
    simp
  · unfold cancelRow
    rw [if_neg hyid]
    intro hp
    have hym : y ∈ s.appointments.filter (fun a =>
        a.doctor_id == did && a.status == AppointmentStatus.confirmed &&
          decide (a.start_time < en) && decide (a.end_time > st)) :=
      List.mem_filter.mpr ⟨hy, hp⟩
    rw [hconf] at hym
    simp only [List.mem_singleton] at hym
    subst hym
    rw [hx] at hyid
    simp at hyid

/-- With coverage passing and two or more matching conflict rows, booking
surfaces the database error instead of a business rejection. -/
theorem book_internal_of (s : Store) (pid : Nat) (d : AppointmentCreate) (u : User)
    (hu : get_user_by_id s d.doctor_id = some u) (hrole : u.role = UserRole.doctor)
    (hcov : check_time_within_availability s d.doctor_id d.start_time d.end_time = true)
    (hlen : 2 ≤ (conflictMatches s d.doctor_id d.start_time d.end_time).length) :
    book_appointment s pid d = .error (.internal .multipleResultsFound) := by
  unfold book_appointment
  rw [hu, check_booking_conflict_eq, if_pos hlen]
  simp [hrole, hcov]

/-- With two or more matching overlap rows, availability registration
surfaces the database error instead of a business rejection. -/
theorem set_availability_internal_of (s : Store) (did : Nat) (d : AvailabilityCreate)
    (hlen : 2 ≤ (overlapMatches s did d.start_time d.end_time).length) :
    set_availability s did d = .error (.internal .multipleResultsFound) := by
  unfold set_availability
  rw [check_availability_overlap_eq, if_pos hlen]

/-- Claim C1: for every existing user with role Doctor and every request
interval with end > start and start in the future, `book_appointment`
succeeds — persisting a new appointment with status Confirmed — if and
only if some single availability window of that doctor contains the
interval and no Confirmed appointment of that doctor overlaps it under
the half-open test.  (The future-start guard lives in the request schema
and does not alter the service path, so it appears as a hypothesis.) -/
theorem book_appointment_success_iff (s : Store) (pid did : Nat) (st en now : Int) (u : User)
    (hu : get_user_by_id s did = some u) (hrole : u.role = UserRole.doctor)
    (hval : st < en) (hfut : now < st) :
    ((∃ r, book_appointment s pid ⟨did, st, en⟩ = .ok r) ↔
      ((∃ w ∈ s.availabilities, w.doctor_id = did ∧ w.start_time ≤ st ∧ en ≤ w.end_time) ∧
       ¬ ∃ a ∈ s.appointments, a.doctor_id = did ∧ a.status = AppointmentStatus.confirmed ∧
          a.start_time < en ∧ st < a.end_time)) ∧
    (∀ a s', book_appointment s pid ⟨did, st, en⟩ = .ok (a, s') →
      a.status = AppointmentStatus.confirmed ∧ a ∈ s'.appointments ∧ a.doctor_id = did ∧
      a.patient_id = pid ∧ a.start_time = st ∧ a.end_time = en) := by
  constructor
  · rw [book_ok_iff s pid ⟨did, st, en⟩ u hu hrole]
    rw [coverage_iff, conflictMatches_nil_iff]
  · intro a s' h
    obtain ⟨-, ha, hs⟩ := book_ok_destruct s pid ⟨did, st, en⟩ a s' h
    subst ha
    subst hs
    refine ⟨rfl, ?_, rfl, rfl, rfl, rfl⟩
    simp

/-- Witness for C1: in a store with doctor 1 covering [0,100), patient 2
successfully books [10,20). -/
theorem book_appointment_success_iff_witness :
    ∃ r, book_appointment demoStore 2 ⟨1, 10, 20⟩ = .ok r :=
  ((book_appointment_success_iff demoStore 2 1 10 20 0 { id := 1, role := UserRole.doctor }
      (by decide) (by decide) (by decide) (by decide)).1).mpr (by decide)

/-- Claim C2: the pairwise non-overlap of each doctor's Confirmed
appointments is preserved by every sequence of book, cancel and
set-availability operations; any starting store satisfying the invariant
qualifies, in particular the empty store, for which it holds trivially. -/
theorem confirmed_disjoint_all_ops (ops : List Op) (s : Store)
    (hinv : ConfirmedDisjoint s) : ConfirmedDisjoint (ops.foldl applyOp s) := by
  induction ops generalizing s with
  | nil => exact hinv
  | cons op rest ih => exact ih _ (applyOp_preserves s op hinv)

/-- Witness for C2: a booking, a touching booking, a cancellation and a
re-booking run from a store with no appointments keep the invariant. -/
theorem confirmed_disjoint_all_ops_witness :
    ConfirmedDisjoint (List.foldl applyOp demoStore
      [Op.book 2 ⟨1, 10, 20⟩, Op.book 2 ⟨1, 20, 30⟩, Op.cancel 0 1 2,
       Op.book 2 ⟨1, 10, 20⟩]) :=
  confirmed_disjoint_all_ops
    [Op.book 2 ⟨1, 10, 20⟩, Op.book 2 ⟨1, 20, 30⟩, Op.cancel 0 1 2, Op.book 2 ⟨1, 10, 20⟩]
    demoStore List.Pairwise.nil

/-- Claim C3 (code bug): with coverage holding and two Confirmed
appointments of the doctor overlapping the request [15,25), booking does
NOT fail with the DoubleBooked rejection — `scalar_one_or_none` raises
`MultipleResultsFound`, which surfaces as an internal failure, although
the repository's docstring promises a plain Boolean conflict answer. -/
theorem book_conflict_raises_not_rejects :
    (∃ w ∈ bugStoreBooking.availabilities,
        w.doctor_id = 1 ∧ w.start_time ≤ 15 ∧ (25 : Int) ≤ w.end_time) ∧
    (∃ a ∈ bugStoreBooking.appointments, a.doctor_id = 1 ∧
        a.status = AppointmentStatus.confirmed ∧ a.start_time < 25 ∧ (15 : Int) < a.end_time) ∧
    book_appointment bugStoreBooking 3 ⟨1, 15, 25⟩ = .error (.internal .multipleResultsFound) ∧
    book_appointment bugStoreBooking 3 ⟨1, 15, 25⟩ ≠ .error .doubleBooked := by decide

/-- Claim C4 (code bug): with two existing windows of the doctor
overlapping the new window [5,15), `set_availability` does NOT fail with
the OverlapConflict rejection — the overlap query's `scalar_one_or_none`
raises `MultipleResultsFound` instead. -/
theorem set_availability_raises_not_rejects :
    (∃ w ∈ bugStoreAvailability.availabilities,
        w.doctor_id = 1 ∧ w.start_time < 15 ∧ (5 : Int) < w.end_time) ∧
    set_availability bugStoreAvailability 1 ⟨5, 15⟩ = .error (.internal .multipleResultsFound) ∧
    set_availability bugStoreAvailability 1 ⟨5, 15⟩ ≠ .error .overlapConflict := by decide

/-- Claim C5: both conflict checks return a Boolean exactly when at most
one stored row matches the half-open overlap condition; with two or more
matching rows they raise `MultipleResultsFound`, and the enclosing booking
or availability registration then terminates with that internal failure
rather than a business rejection. -/
theorem conflict_checks_scalar_one_or_none (s : Store) (did pid : Nat) (st en : Int) :
    (check_booking_conflict s did st en none =
      if 2 ≤ (conflictMatches s did st en).length then .error DBError.multipleResultsFound
      else .ok ((conflictMatches s did st en).length == 1)) ∧
    (check_availability_overlap s did st en none =
      if 2 ≤ (overlapMatches s did st en).length then .error DBError.multipleResultsFound
      else .ok ((overlapMatches s did st en).length == 1)) ∧
    (∀ u, get_user_by_id s did = some u → u.role = UserRole.doctor →
      check_time_within_availability s did st en = true →
      2 ≤ (conflictMatches s did st en).length →
      book_appointment s pid ⟨did, st, en⟩ = .error (.internal .multipleResultsFound)) ∧
    (2 ≤ (overlapMatches s did st en).length →
      set_availability s did ⟨st, en⟩ = .error (.internal .multipleResultsFound)) :=
  ⟨check_booking_conflict_eq s did st en,
   check_availability_overlap_eq s did st en,
   fun u hu hrole hcov hlen => book_internal_of s pid ⟨did, st, en⟩ u hu hrole hcov hlen,
   fun hlen => set_availability_internal_of s did ⟨st, en⟩ hlen⟩

/-- Witness for C5: in a store where [5,15) overlaps two confirmed
appointments and two windows of doctor 1, both operations surface the
`MultipleResultsFound` failure. -/
theorem conflict_checks_scalar_one_or_none_witness :
    book_appointment raceStore 9 ⟨1, 5, 15⟩ = .error (.internal .multipleResultsFound) ∧
    set_availability raceStore 1 ⟨5, 15⟩ = .error (.internal .multipleResultsFound) :=
  ⟨(conflict_checks_scalar_one_or_none raceStore 1 9 5 15).2.2.1
      { id := 1, role := UserRole.doctor } (by decide) (by decide) (by decide) (by decide),
   (conflict_checks_scalar_one_or_none raceStore 1 9 5 15).2.2.2 (by decide)⟩

/-- Claim C6, counterexample: cancelling an owned confirmed appointment
whose start time (10) is already past at response-validation time (50)
does NOT return the appointment — `AppointmentResponse.model_validate`
raises a validation error (HTTP 500) — although the status update was
already committed: the carried store holds the row as Cancelled. -/
theorem cancel_past_start_raises :
    get_appointment_by_id rebookStore 1 =
      some { id := 1, doctor_id := 1, patient_id := 2, start_time := 10, end_time := 20,
             status := AppointmentStatus.confirmed } ∧
    cancel_appointment rebookStore 50 1 2 =
      .error (.validationError SchemaError.pastInterval
        { rebookStore with
            appointments := [{ id := 1, doctor_id := 1, patient_id := 2, start_time := 10,
                               end_time := 20, status := AppointmentStatus.cancelled }] }) := by
  decide

/-- Claim C6 (amended): `cancel_appointment` fails with NotFound when no
appointment has the id and with Forbidden when the caller is not the
appointment's patient; otherwise it commits the status Cancelled, but it
returns the row — and re-cancelling an already-Cancelled owned
appointment succeeds idempotently — only when the row's interval still
passes the response re-validation; when the row's start time is already
past, the commit still happens and the service then raises a validation
error instead of returning. -/
theorem cancel_appointment_spec (s : Store) (now : Int) (aid pid : Nat) :
    (get_appointment_by_id s aid = none →
        cancel_appointment s now aid pid = .error .notFound) ∧
    (∀ a, get_appointment_by_id s aid = some a → a.patient_id ≠ pid →
        cancel_appointment s now aid pid = .error .forbidden) ∧
    (∀ a, get_appointment_by_id s aid = some a → a.patient_id = pid →
        validateAppointmentInterval now a.start_time a.end_time = none →
        ∃ a' s', cancel_appointment s now aid pid = .ok (a', s') ∧
          a' = { a with status := AppointmentStatus.cancelled } ∧
          a'.status = AppointmentStatus.cancelled ∧
          get_appointment_by_id s' aid = some a' ∧
          s'.users = s.users ∧ s'.availabilities = s.availabilities) ∧
    (∀ a, get_appointment_by_id s aid = some a → a.patient_id = pid →
        a.status = AppointmentStatus.cancelled →
        validateAppointmentInterval now a.start_time a.end_time = none →
        ∃ a' s', cancel_appointment s now aid pid = .ok (a', s') ∧
          a'.status = AppointmentStatus.cancelled) ∧
    (∀ a e, get_appointment_by_id s aid = some a → a.patient_id = pid →
        validateAppointmentInterval now a.start_time a.end_time = some e →
        ∃ s', cancel_appointment s now aid pid = .error (.validationError e s') ∧
          get_appointment_by_id s' aid =
            some { a with status := AppointmentStatus.cancelled }) := by
  have key : ∀ a, get_appointment_by_id s aid = some a → a.patient_id = pid →
      validateAppointmentInterval now a.start_time a.end_time = none →
      ∃ a' s', cancel_appointment s now aid pid = .ok (a', s') ∧
        a' = { a with status := AppointmentStatus.cancelled } ∧
        a'.status = AppointmentStatus.cancelled ∧
        get_appointment_by_id s' aid = some a' ∧
        s'.users = s.users ∧ s'.availabilities = s.availabilities := by
    intro a hget hpid hval
    refine ⟨{ a with status := AppointmentStatus.cancelled },
      { s with appointments := s.appointments.map (cancelRow aid) },
      cancel_ok_eq s now aid pid a hget hpid hval, rfl, rfl, ?_, rfl, rfl⟩
    exact find_cancelRow s.appointments aid a hget
  refine ⟨?_, ?_, key, ?_, ?_⟩
  · intro h
    unfold cancel_appointment
    rw [h]
  · intro a hget hne
    unfold cancel_appointment
    rw [hget]
    simp [hne]
  · intro a hget hpid hstatus hval
    obtain ⟨a', s', h1, _, h3, _⟩ := key a hget hpid hval
    exact ⟨a', s', h1, h3⟩
  · intro a e hget hpid hval
    refine ⟨{ s with appointments := s.appointments.map (cancelRow aid) },
      cancel_validation_raise_eq s now aid pid a e hget hpid hval, ?_⟩
    exact find_cancelRow s.appointments aid a hget

/-- Witness for C6: re-cancelling an already-cancelled appointment owned
by patient 2, at a clock value before its start, succeeds and leaves the
status Cancelled. -/
theorem cancel_appointment_spec_witness :
    ∃ a' s', cancel_appointment cancelStore 0 1 2 = .ok (a', s') ∧
      a'.status = AppointmentStatus.cancelled :=
  (cancel_appointment_spec cancelStore 0 1 2).2.2.2.1
    { id := 1, doctor_id := 1, patient_id := 2, start_time := 10, end_time := 20,
      status := AppointmentStatus.cancelled } (by decide) (by decide) (by decide) (by decide)

/-- Claim C7: a Confirmed appointment blocks a booking of the exact same
doctor and interval (DoubleBooked), but after its owner cancels it the
very same booking succeeds — cancelled rows are retained yet excluded
from the conflict query.  The slot's interval is required to pass the
interval validation at the cancellation's clock value (a future start):
only then does the cancellation return normally, and only such slots are
re-bookable at all, since the booking schema imposes the same guard. -/
theorem cancel_frees_slot (s : Store) (now : Int) (a : Appointment) (u : User) (pid2 : Nat)
    (hu : get_user_by_id s a.doctor_id = some u) (hrole : u.role = UserRole.doctor)
    (hcov : check_time_within_availability s a.doctor_id a.start_time a.end_time = true)
    (hconf : conflictMatches s a.doctor_id a.start_time a.end_time = [a])
    (hget : get_appointment_by_id s a.id = some a)
    (hval : validateAppointmentInterval now a.start_time a.end_time = none) :
    book_appointment s pid2 ⟨a.doctor_id, a.start_time, a.end_time⟩ = .error .doubleBooked ∧
    ∃ a' s', cancel_appointment s now a.id a.patient_id = .ok (a', s') ∧
      ∃ b s'', book_appointment s' pid2 ⟨a.doctor_id, a.start_time, a.end_time⟩ = .ok (b, s'') ∧
        b.status = AppointmentStatus.confirmed ∧ b.doctor_id = a.doctor_id ∧
        b.start_time = a.start_time ∧ b.end_time = a.end_time := by
  constructor
  · exact book_doubleBooked s pid2 ⟨a.doctor_id, a.start_time, a.end_time⟩ u a hu hrole hcov hconf
  · refine ⟨{ a with status := AppointmentStatus.cancelled },
      { s with appointments := s.appointments.map (cancelRow a.id) },
      cancel_ok_eq s now a.id a.patient_id a hget rfl hval, ?_⟩
    have hnil : conflictMatches { s with appointments := s.appointments.map (cancelRow a.id) }
        a.doctor_id a.start_time a.end_time = [] :=
      conflictMatches_cancel s a.id a.doctor_id a.start_time a.end_time a hconf rfl
    exact ⟨_, _, book_ok_of _ pid2 ⟨a.doctor_id, a.start_time, a.end_time⟩ u hu hrole hcov hnil,
      rfl, rfl, rfl, rfl⟩

/-- Witness for C7: patient 3's booking of [10,20) is rejected while
patient 2's confirmed appointment exists, and succeeds after patient 2
cancels it at clock value 0. -/
theorem cancel_frees_slot_witness :
    book_appointment rebookStore 3 ⟨1, 10, 20⟩ = .error .doubleBooked ∧
    ∃ a' s', cancel_appointment rebookStore 0 1 2 = .ok (a', s') ∧
      ∃ b s'', book_appointment s' 3 ⟨1, 10, 20⟩ = .ok (b, s'') ∧
        b.status = AppointmentStatus.confirmed ∧ b.doctor_id = 1 ∧
        b.start_time = 10 ∧ b.end_time = 20 :=
  cancel_frees_slot rebookStore 0
    { id := 1, doctor_id := 1, patient_id := 2, start_time := 10, end_time := 20,
      status := AppointmentStatus.confirmed }
    { id := 1, role := UserRole.doctor } 3 (by decide) (by decide) (by decide) (by decide)
    (by decide) (by decide)

/-- Claim C8, counterexample: a request whose start equals the current
time passes both schema validators, contradicting the claim that such a
request is rejected with PastInterval. -/
theorem validate_now_start_accepted :
    validateAppointmentInterval 5 5 6 = none ∧ validateAvailabilityInterval 5 5 6 = none := by
  decide

/-- Claim C8 (amended): both schemas reject with PastInterval exactly when
the start is strictly before the request time — a start equal to the
current time is accepted — and reject with InvalidInterval exactly when
the start is acceptable but end ≤ start; they accept exactly the valid
future-or-now intervals. -/
theorem validate_interval_characterization (now st en : Int) :
    (validateAppointmentInterval now st en = none ↔ now ≤ st ∧ st < en) ∧
    (validateAppointmentInterval now st en = some .pastInterval ↔ st < now) ∧
    (validateAppointmentInterval now st en = some .invalidInterval ↔ now ≤ st ∧ en ≤ st) ∧
    (validateAvailabilityInterval now st en = none ↔ now ≤ st ∧ st < en) ∧
    (validateAvailabilityInterval now st en = some .pastInterval ↔ st < now) ∧
    (validateAvailabilityInterval now st en = some .invalidInterval ↔ now ≤ st ∧ en ≤ st) := by
  unfold validateAppointmentInterval validateAvailabilityInterval
  refine ⟨?_, ?_, ?_, ?_, ?_, ?_⟩ <;> split_ifs <;> simp_all

/-- Claim C9: verifying any password — including one whose UTF-8 encoding
exceeds 72 bytes — against its own fresh hash succeeds: the explicit
72-byte cut in `get_password_hash` agrees with the cut bcrypt itself
applies inside `checkpw`. -/
theorem verify_password_roundtrip (salt : Nat) (password : String) :
    verify_password password (get_password_hash salt password) = true := by
  simp [verify_password, get_password_hash, bcrypt_checkpw, bcrypt_hashpw, List.take_take]

/-- Claim C10: the three list queries keep exactly the rows matching their
base condition with `start_time` at or after the optional filter value,
and always return rows sorted by ascending `start_time`. -/
theorem list_queries_filter_and_sorted (s : Store) (did pid : Nat) (d : Int) (o : Option Int) :
    (∀ a, a ∈ get_doctor_appointments s did (some d) ↔
        a ∈ s.appointments ∧ a.doctor_id = did ∧ a.status = AppointmentStatus.confirmed ∧
          d ≤ a.start_time) ∧
    (∀ a, a ∈ get_patient_appointments s pid (some d) ↔
        a ∈ s.appointments ∧ a.patient_id = pid ∧ a.status = AppointmentStatus.confirmed ∧
          d ≤ a.start_time) ∧
    (∀ w, w ∈ get_doctor_availabilities s did (some d) ↔
        w ∈ s.availabilities ∧ w.doctor_id = did ∧ d ≤ w.start_time) ∧
    (get_doctor_appointments s did o).Sorted apptByStart ∧
    (get_patient_appointments s pid o).Sorted apptByStart ∧
    (get_doctor_availabilities s did o).Sorted availByStart := by
  refine ⟨?_, ?_, ?_, ?_, ?_, ?_⟩
  · intro a
    simp only [get_doctor_appointments, List.mem_insertionSort, List.mem_filter,
      Bool.and_eq_true, beq_iff_eq, decide_eq_true_eq, and_assoc]
  · intro a
    simp only [get_patient_appointments, List.mem_insertionSort, List.mem_filter,
      Bool.and_eq_true, beq_iff_eq, decide_eq_true_eq, and_assoc]
  · intro w
    simp only [get_doctor_availabilities, List.mem_insertionSort, List.mem_filter,
      Bool.and_eq_true, beq_iff_eq, decide_eq_true_eq, and_assoc]
  · exact List.sorted_insertionSort _ _
  · exact List.sorted_insertionSort _ _
  · exact List.sorted_insertionSort _ _

end DoctorApi
